import Mathlib

/-!

Verification of the Lumina media-saver local HTTP server (`server.py`).

The development shallowly embeds the request handler: Python values that
can appear in parsed JSON become the mutual inductive `Json`, subprocess
interactions and other stdlib effects are supplied by an environment
record `Env`, and the handler `handle_yt_dlp_download` produces the list
of observable events (subprocess invocations, file unlink, the JSON
response) or an uncaught exception.  `do_GET`, `do_OPTIONS`, `do_POST`
and the CORS-adding `end_headers` are embedded over an explicit
association-list file system and a header list.

-/

mutual

/-- Python values produced by `json.loads`: JSON with objects and arrays
as their own mutual inductives so that all recursion stays structural. -/
inductive Json where
  | null
  | bool (b : Bool)
  | num (n : Int)
  | str (s : String)
  | arr (xs : JsonArr)
  | obj (fields : JsonObj)

/-- A JSON array, as a bespoke list of `Json`. -/
inductive JsonArr where
  | nil
  | cons (hd : Json) (tl : JsonArr)

/-- A JSON object, as a bespoke association list from keys to `Json`. -/
inductive JsonObj where
  | nil
  | cons (k : String) (v : Json) (tl : JsonObj)

end

/-- Python `dict.get(k)`: first binding of `k`, `None` when absent. -/
def objLookup : JsonObj → String → Option Json
  | .nil, _ => none
  | .cons k v tl, key => if k == key then some v else objLookup tl key

/-- Python truthiness of a decoded JSON value (`if not url:`). -/
def truthy : Json → Bool
  | .null => false
  | .bool b => b
  | .num n => n != 0
  | .str s => s != ""
  | .arr .nil => false
  | .arr (.cons _ _) => true
  | .obj .nil => false
  | .obj (.cons _ _ _) => true

/-- The Python type name of a decoded JSON value, used in exception text. -/
def pyTypeName : Json → String
  | .null => "NoneType"
  | .bool _ => "bool"
  | .num _ => "int"
  | .str _ => "str"
  | .arr _ => "list"
  | .obj _ => "dict"

/-- Escape a character for JSON string output (quote and backslash only;
the handler never emits control characters in the fields the claims touch). -/
def escChar (c : Char) : List Char :=
  if c == '"' then ['\\', '"'] else if c == '\\' then ['\\', '\\'] else [c]

/-- JSON string escaping used by `json.dumps`. -/
def jsonEscape (s : String) : String := ⟨(s.data.map escChar).flatten⟩

mutual

/-- `json.dumps` with its default separators. -/
def jsonEncode : Json → String
  | .null => "null"
  | .bool true => "true"
  | .bool false => "false"
  | .num n => toString n
  | .str s => "\"" ++ jsonEscape s ++ "\""
  | .arr a => "[" ++ jsonEncodeArr a ++ "]"
  | .obj o => "\x7b" ++ jsonEncodeObj o ++ "\x7d"

/-- `json.dumps` of the items of an array. -/
def jsonEncodeArr : JsonArr → String
  | .nil => ""
  | .cons x .nil => jsonEncode x
  | .cons x tl => jsonEncode x ++ ", " ++ jsonEncodeArr tl

/-- `json.dumps` of the bindings of an object. -/
def jsonEncodeObj : JsonObj → String
  | .nil => ""
  | .cons k v .nil => "\"" ++ jsonEscape k ++ "\": " ++ jsonEncode v
  | .cons k v tl =>
      "\"" ++ jsonEscape k ++ "\": " ++ jsonEncode v ++ ", " ++ jsonEncodeObj tl

end

/-- Python `str(x)` of a decoded JSON value as interpolated into an
f-string (only the extension reaches this in the handler; container
values use JSON punctuation rather than Python repr punctuation, which no
claim observes). -/
def pyStr : Json → String
  | .null => "None"
  | .bool true => "True"
  | .bool false => "False"
  | .num n => toString n
  | .str s => s
  | .arr a => "[" ++ jsonEncodeArr a ++ "]"
  | .obj o => "\x7b" ++ jsonEncodeObj o ++ "\x7d"

/-- Result of a completed `subprocess.run` (exit code, captured text). -/
structure ProcResult where
  returncode : Int
  stdout : String
  stderr : String

/-- Outcome of `subprocess.run` with a timeout: either the process
completed, or `subprocess.TimeoutExpired` was raised. -/
inductive RunOutcome where
  | timedOut
  | completed (r : ProcResult)

/-- Outcome of `json.loads(body.decode(...))` on the request body:
a parsed value, a `json.JSONDecodeError`, or a decoding failure
(a generic exception reaching the outer `except Exception`). -/
inductive BodyOutcome where
  | parsed (j : Json)
  | jsonError
  | decodeFailed (msg : String)

/-- The stdlib/OS interactions one POST to `/api/download` can make,
supplied as an oracle: header value, body parse outcome, the two
subprocess runs, the parse of the metadata stdout, the generated
`uuid.uuid4().hex`, and the post-download file checks. -/
structure Env where
  contentLength : Option String
  bodyOutcome : BodyOutcome
  infoRun : RunOutcome
  infoParsed : Option Json
  uuidHex : String
  downloadRun : RunOutcome
  fileExists : Bool
  sizeAt : Nat → Nat

/-- Observable actions of the POST handler, in order. -/
inductive Event where
  | runInfo (args : List String) (timeoutSec : Nat)
  | runDownload (args : List String) (timeoutSec : Nat)
  | unlinkFile (path : List String)
  | respond (status : Nat) (body : Json)

/-- ASCII whitespace stripped by Python `int` around its argument. -/
def isSpaceChar (c : Char) : Bool :=
  c == ' ' || c == '\t' || c == '\n' || c == '\r'

/-- Strip surrounding whitespace from a character list. -/
def trimChars (l : List Char) : List Char :=
  ((l.dropWhile isSpaceChar).reverse.dropWhile isSpaceChar).reverse

/-- The numeric value of a non-empty run of decimal digits, `none` for
anything else. -/
def digitsToNat? : List Char → Option Nat
  | [] => none
  | l =>
      if l.all Char.isDigit then
        some (l.foldl (fun a c => a * 10 + (c.toNat - 48)) 0)
      else none

/-- `int(s)` for the Content-Length header: optional sign and digits
after stripping surrounding whitespace, `none` when `int` raises. -/
def pyParseInt (s : String) : Option Int :=
  match trimChars s.data with
  | '-' :: rest => (digitsToNat? rest).map (fun n => -(n : Int))
  | '+' :: rest => (digitsToNat? rest).map (fun n => (n : Int))
  | t => (digitsToNat? t).map (fun n => (n : Int))

/-- `int(self.headers.get(..., 0))`: the default `0` when the header is
absent, otherwise the parse of its value. -/
def contentLengthVal : Option String → Option Int
  | none => some 0
  | some s => pyParseInt s

/-- Zero-padded rendering used by the `:02d` format spec. -/
def pad2 (n : Int) : String :=
  if 0 ≤ n && n < 10 then "0" ++ toString n else toString n

/-- `format_time` from the handler: `--:--` for a falsy duration, else
`H:MM:SS` or `M:SS`; a non-numeric truthy value raises `TypeError`
(surfacing as the error message). -/
def format_time (seconds : Json) : Except String String :=
  if truthy seconds then
    match seconds with
    | .num n =>
        let hours := n.ediv 3600
        let minutes := (n.emod 3600).ediv 60
        let secs := n.emod 60
        if hours > 0 then
          .ok (toString hours ++ ":" ++ pad2 minutes ++ ":" ++ pad2 secs)
        else
          .ok (toString minutes ++ ":" ++ pad2 secs)
    | other => .error ("unsupported operand type for floordiv: " ++ pyTypeName other)
  else
    .ok "--:--"

/-- The downloads directory (`DOWNLOADS_DIR`) as a path string; the model
places the script directory at `app`. -/
def DOWNLOADS_DIR_str : String := "app/downloads"

/-- Body `{"status": "error", "error": msg}` used by every error path of
the handler except the missing-url one. -/
def errBody (msg : String) : Json :=
  .obj (.cons "status" (.str "error") (.cons "error" (.str msg) .nil))

/-- Body `{"error": "URL not provided"}` of the missing-url rejection;
note it has no `status` field. -/
def urlNotProvidedBody : Json :=
  .obj (.cons "error" (.str "URL not provided") .nil)

/-- Body of the outer `except Exception` handler. -/
def serverErrorBody (msg : String) : Json :=
  errBody ("Server error: " ++ msg)

/-- argv of the metadata invocation. -/
def infoArgs (url : String) : List String :=
  ["yt-dlp", "-j", "--no-warnings", url]

/-- argv of the download invocation. -/
def downloadArgs (url outPath : String) : List String :=
  ["yt-dlp", "-f", "bestvideo+bestaudio/best", "-o", outPath, "--no-warnings",
   "--socket-timeout", "30", "--no-part", "--quiet", "--merge-output-format",
   "mp4", url]

/-- The generated safe filename: the uuid4 hex digest, a dot, and the
extension reported by the metadata, defaulting to mp4 when absent. -/
def safeFilename (uuidHex : String) (videoInfo : JsonObj) : String :=
  uuidHex ++ "." ++ pyStr ((objLookup videoInfo "ext").getD (.str "mp4"))

/-- `str(DOWNLOADS_DIR / name)`. -/
def filePathStr (name : String) : String := DOWNLOADS_DIR_str ++ "/" ++ name

/-- The final value of `file_size` after the initial `os.path.getsize`
and the three bounded re-checks of the retry loop. -/
def finalSize (sizeAt : Nat → Nat) : Nat :=
  if sizeAt 0 > 0 then sizeAt 0
  else if sizeAt 1 > 0 then sizeAt 1
  else if sizeAt 2 > 0 then sizeAt 2
  else sizeAt 3

/-- Whether `pat` occurs at the head of `l` (Python `str.startswith`,
over the character lists of the embedding). -/
def listStartsWith [BEq α] : List α → List α → Bool
  | _, [] => true
  | [], _ :: _ => false
  | c :: cs, p :: ps => c == p && listStartsWith cs ps

/-- Whether `pat` occurs anywhere inside `l` (substring containment). -/
def listHasSub [BEq α] (pat : List α) : List α → Bool
  | [] => pat.isEmpty
  | c :: rest => listStartsWith (c :: rest) pat || listHasSub pat rest

/-- One pass of Python `str.replace`, with fuel bounded by the input
length so the recursion is structural; every occurrence of the non-empty
`pat` is replaced by `rep`, scanning left to right. -/
def pyReplaceAux (pat rep : List Char) : Nat → List Char → List Char
  | 0, l => l
  | _ + 1, [] => []
  | fuel + 1, c :: rest =>
    if !pat.isEmpty && listStartsWith (c :: rest) pat then
      rep ++ pyReplaceAux pat rep fuel ((c :: rest).drop pat.length)
    else
      c :: pyReplaceAux pat rep fuel rest

/-- Python `str.replace` on character lists. -/
def pyReplaceList (pat rep l : List Char) : List Char :=
  pyReplaceAux pat rep l.length l

/-- Python `s.replace(pat, rep)`. -/
def pyReplace (s pat rep : String) : String :=
  ⟨pyReplaceList pat.data rep.data s.data⟩

/-- Python `s.startswith(pre)`. -/
def pyStartsWith (s pre : String) : Bool :=
  listStartsWith s.data pre.data

/-- Split a path string into its non-empty `/`-separated segments
(the parts `pathlib` keeps, `..` included). -/
def splitSegsAux (cur : List Char) : List Char → List (List Char)
  | [] => [cur]
  | c :: rest =>
      if c == '/' then cur :: splitSegsAux [] rest
      else splitSegsAux (cur ++ [c]) rest

/-- The segments of a path string. -/
def segsOf (s : String) : List String :=
  ((splitSegsAux [] s.data).filter (fun l => !l.isEmpty)).map (fun l => ⟨l⟩)

/-- `DOWNLOADS_DIR` as path segments. -/
def DOWNLOADS_DIR : List String := segsOf DOWNLOADS_DIR_str

/-- `base / name` of `pathlib`: an absolute `name` replaces the base. -/
def pathJoin (base : List String) (name : String) : List String :=
  if pyStartsWith name "/" then segsOf name else base ++ segsOf name

/-- OS-level resolution of `.` and `..` segments, as performed when the
path is handed to `exists`/`open`/`remove` (no symlinks in the model). -/
def resolveSegs (segs : List String) : List String :=
  segs.foldl
    (fun acc s => if s == "." then acc else if s == ".." then acc.dropLast else acc ++ [s])
    []

/-- The local file system: resolved path segments of each regular file,
with its byte content. -/
abbrev FileSystem := List (List String × List Nat)

/-- `exists` / `open` on the model file system. -/
def fsLookup : FileSystem → List String → Option (List Nat)
  | [], _ => none
  | e :: tl, k => if e.1 == k then some e.2 else fsLookup tl k

/-- `os.remove` on the model file system. -/
def fsRemove : FileSystem → List String → FileSystem
  | [], _ => []
  | e :: tl, k => if e.1 == k then fsRemove tl k else e :: fsRemove tl k

/-- Python `x.get(key)`: a lookup on a dict, an `AttributeError` (whose
message reaches the outer `except Exception`) on anything else. -/
def pyGet (j : Json) (key : String) : Except String (Option Json) :=
  match j with
  | .obj fields => .ok (objLookup fields key)
  | other => .error (pyTypeName other ++ " object has no attribute get")

/-- The body of the inner `try` of `handle_yt_dlp_download` together with
its two `except` clauses (`TimeoutExpired` to 504, `JSONDecodeError` of
the metadata stdout to 400); exceptions it does not catch are rendered
here directly as the 500 response the outer `except Exception` builds. -/
def tryInner (env : Env) (url : String) : List Event :=
  let evInfo := Event.runInfo (infoArgs url) 10
  match env.infoRun with
  | .timedOut => [evInfo, .respond 504 (errBody "Download timeout (file too large?)")]
  | .completed infoResult =>
    if infoResult.returncode != 0 then
      let errorMsg := if infoResult.stderr != "" then infoResult.stderr
                      else "Failed to get video info"
      [evInfo, .respond 400 (errBody errorMsg)]
    else
      match env.infoParsed with
      | none => [evInfo, .respond 400 (errBody "Invalid video info response")]
      | some videoInfo =>
        match videoInfo with
        | .obj fields =>
          let title := (objLookup fields "title").getD (.str "video")
          let duration := (objLookup fields "duration").getD (.num 0)
          let thumbnail := (objLookup fields "thumbnail").getD (.str "")
          let filename := safeFilename env.uuidHex fields
          let evDownload := Event.runDownload (downloadArgs url (filePathStr filename)) 600
          match env.downloadRun with
          | .timedOut =>
              [evInfo, evDownload,
               .respond 504 (errBody "Download timeout (file too large?)")]
          | .completed downloadResult =>
            if downloadResult.returncode != 0 then
              let errorMsg :=
                if downloadResult.stderr != "" then downloadResult.stderr
                else if downloadResult.stdout != "" then downloadResult.stdout
                else "Download failed"
              [evInfo, evDownload, .respond 400 (errBody errorMsg)]
            else if !env.fileExists then
              [evInfo, evDownload, .respond 400 (errBody "File was not created")]
            else
              let fileSize := finalSize env.sizeAt
              if fileSize == 0 then
                [evInfo, evDownload, .unlinkFile (pathJoin DOWNLOADS_DIR filename),
                 .respond 400 (errBody "Downloaded file is empty. The video might be restricted or unavailable. Try another link.")]
              else
                match format_time duration with
                | .error msg => [evInfo, evDownload, .respond 500 (serverErrorBody msg)]
                | .ok desc =>
                  [evInfo, evDownload,
                   .respond 200 (.obj
                     (.cons "status" (.str "success")
                     (.cons "title" title
                     (.cons "duration" duration
                     (.cons "thumbnail" thumbnail
                     (.cons "filesize" (.num (fileSize : Int))
                     (.cons "filename" (.str filename)
                     (.cons "url" (.str ("/downloads/" ++ filename))
                     (.cons "desc" (.str ("Duration: " ++ desc)) .nil)))))))))]
        | other =>
          -- the title lookup on a non-dict raises AttributeError, caught
          -- only by the outer catch-all handler
          [evInfo, .respond 500 (serverErrorBody (pyTypeName other ++ " object has no attribute get"))]

/-- The outer `try` of the handler: body decode and `url` extraction,
with `except json.JSONDecodeError` (400) and `except Exception` (500). -/
def tryOuter (env : Env) : List Event :=
  match env.bodyOutcome with
  | .jsonError => [.respond 400 (errBody "Invalid JSON in request")]
  | .decodeFailed msg => [.respond 500 (serverErrorBody msg)]
  | .parsed data =>
    match pyGet data "url" with
    | .error msg => [.respond 500 (serverErrorBody msg)]
    | .ok urlOpt =>
      let urlJ := urlOpt.getD .null
      if truthy urlJ then
        match urlJ with
        | .str url => tryInner env url
        | other =>
            -- `subprocess.run` rejects a non-str argv element with a
            -- TypeError, before the process is spawned
            [.respond 500 (serverErrorBody
              ("expected str, bytes or os.PathLike object, not " ++ pyTypeName other))]
      else
        [.respond 400 urlNotProvidedBody]

/-- `handle_yt_dlp_download`: the Content-Length parse and body read sit
before the `try`, so a `ValueError` there escapes the handler (`.error`);
otherwise the guarded code runs and always responds. -/
def handle_yt_dlp_download (env : Env) : Except String (List Event) :=
  match contentLengthVal env.contentLength with
  | none => .error "ValueError: invalid literal for int with base 10"
  | some _ => .ok (tryOuter env)

/-- Body of an HTTP response in the model. -/
inductive Body where
  | empty
  | jsonPayload (j : Json)
  | fileBytes (bs : List Nat)
  | staticPayload (tag : String)
  | errorPage (code : Nat)

/-- An HTTP response: status, header lines in the order written, body. -/
structure Response where
  status : Nat
  headers : List (String × String)
  body : Body

/-- The three headers the overridden `end_headers` appends to every
response. -/
def corsHeaders : List (String × String) :=
  [("Access-Control-Allow-Origin", "*"),
   ("Access-Control-Allow-Methods", "GET, POST, OPTIONS"),
   ("Access-Control-Allow-Headers", "Content-Type")]

/-- The overridden `end_headers`: the headers already sent, with the CORS
headers appended before the header block is closed. -/
def end_headers (hs : List (String × String)) : List (String × String) :=
  hs ++ corsHeaders

/-- A finished response: every send path of the handler class closes its
header block through the overridden `end_headers`. -/
def mkResponse (status : Nat) (hs : List (String × String)) (b : Body) : Response :=
  ⟨status, end_headers hs, b⟩

/-- `send_json_response`: status, `Content-Type`/`Content-Length`/origin
headers, then `end_headers`, then the `json.dumps` payload. -/
def send_json_response (data : Json) (statusCode : Nat) : Response :=
  mkResponse statusCode
    [("Content-Type", "application/json"),
     ("Content-Length", toString (jsonEncode data).length),
     ("Access-Control-Allow-Origin", "*")]
    (.jsonPayload data)

/-- `BaseHTTPRequestHandler.send_error` (stdlib): an error status with an
HTML explanation page, finished through the overridden `end_headers`. -/
def send_error (code : Nat) : Response :=
  mkResponse code
    [("Content-Type", "text/html;charset=utf-8"), ("Connection", "close")]
    (.errorPage code)

/-- Oracle for the static file serving of `SimpleHTTPRequestHandler` (stdlib):
whatever status, headers and body it chooses for a path. -/
structure StaticEnv where
  status : String → Nat
  headers : String → List (String × String)
  body : String → Body

/-- `super().do_GET()`: the stdlib static response for the path, finished
through the overridden `end_headers`. -/
def staticServe (se : StaticEnv) (path : String) : Response :=
  mkResponse (se.status path) (se.headers path) (se.body path)

/-- Result of a GET: the response and the file system afterwards. -/
structure GetOutcome where
  resp : Response
  fs : FileSystem

/-- `do_GET`: `/` is rewritten to `/index.html`; a `/downloads/` path is
stripped of every occurrence of `/downloads/`, joined onto
`DOWNLOADS_DIR` and served as `video/mp4` with attachment disposition and
then removed, or 404s when the file is absent; anything else is served
statically. -/
def do_GET (fs : FileSystem) (se : StaticEnv) (path : String) : GetOutcome :=
  if path == "/" then
    { resp := staticServe se "/index.html", fs := fs }
  else if pyStartsWith path "/downloads/" then
    let filename := pyReplace path "/downloads/" ""
    let key := resolveSegs (pathJoin DOWNLOADS_DIR filename)
    match fsLookup fs key with
    | some content =>
        { resp := mkResponse 200
            [("Content-type", "video/mp4"),
             ("Content-Disposition", "attachment; filename=\"" ++ filename ++ "\""),
             ("Content-Length", toString content.length)]
            (.fileBytes content),
          fs := fsRemove fs key }
    | none => { resp := send_error 404, fs := fs }
  else
    { resp := staticServe se path, fs := fs }

/-- `do_OPTIONS`: 200, the CORS headers written explicitly and again by
`end_headers`, no body; the path is ignored. -/
def do_OPTIONS (_path : String) : Response :=
  mkResponse 200
    [("Access-Control-Allow-Origin", "*"),
     ("Access-Control-Allow-Methods", "GET, POST, OPTIONS"),
     ("Access-Control-Allow-Headers", "Content-Type")]
    .empty

/-- The responses a trace of handler events sends, each through
`send_json_response`. -/
def responsesOf (evts : List Event) : List Response :=
  evts.filterMap fun e =>
    match e with
    | .respond s b => some (send_json_response b s)
    | _ => none

/-- `do_POST`: only `/api/download` is served; an exception escaping the
handler reaches the socketserver machinery and no response is sent. -/
def do_POST (env : Env) (path : String) : List Response :=
  if path == "/api/download" then
    match handle_yt_dlp_download env with
    | .ok evts => responsesOf evts
    | .error _ => []
  else
    [send_error 404]

/-- An incoming HTTP request in the model. -/
inductive Request where
  | get (path : String)
  | post (path : String) (env : Env)
  | options (path : String)

/-- Dispatch of one request to the handler class. -/
def handleRequest (fs : FileSystem) (se : StaticEnv) : Request → List Response
  | .get p => [(do_GET fs se p).resp]
  | .post p env => do_POST env p
  | .options p => [do_OPTIONS p]

/-- The `(status, body)` of a response event. -/
def respondOf : Event → Option (Nat × Json)
  | .respond s b => some (s, b)
  | _ => none

/-- The `error` field of a JSON response body. -/
def errField : Json → Option Json
  | .obj fields => objLookup fields "error"
  | _ => none

/-- The `status` field of a JSON response body. -/
def statusField : Json → Option Json
  | .obj fields => objLookup fields "status"
  | _ => none

/-- Whether a body carries a string `error` field. -/
def isErrJson (b : Json) : Bool :=
  match errField b with
  | some (.str _) => true
  | _ => false

/-- Whether a body carries `"status": "error"`. -/
def statusIsError (b : Json) : Bool :=
  match statusField b with
  | some (.str s) => s == "error"
  | _ => false

/-- Whether a body is exactly the missing-url rejection body. -/
def isUrlNotProvidedBody : Json → Bool
  | .obj (.cons "error" (.str "URL not provided") .nil) => true
  | _ => false

/-- A response event is either a 2xx, or an error status from
`{400, 500, 504}` whose body carries a string `error` field and either
`"status": "error"` or the bare missing-url body; other events pass. -/
def eventFailureOk : Event → Bool
  | .respond s b =>
      if 200 ≤ s ∧ s < 300 then true
      else (s == 400 || s == 500 || s == 504) && isErrJson b
             && (statusIsError b || isUrlNotProvidedBody b)
  | _ => true

/-- `eventFailureOk` over a whole trace. -/
def allFailuresOk (evts : List Event) : Bool :=
  evts.all eventFailureOk

/-- A trace answers exactly once, with status 200, 400, 500 or 504. -/
def respondsOnceOk (evts : List Event) : Bool :=
  match evts.filterMap respondOf with
  | [(s, _)] => s == 200 || s == 400 || s == 500 || s == 504
  | _ => false

/-- A trace that invokes no subprocess at all. -/
def noProcEvents (evts : List Event) : Bool :=
  evts.all fun e =>
    match e with
    | .runInfo _ _ => false
    | .runDownload _ _ => false
    | _ => true

/-- A static-serving oracle used for concrete evaluations. -/
def seZero : StaticEnv :=
  ⟨fun _ => 200, fun _ => [], fun _ => .empty⟩

/-- An environment whose POST succeeds end to end. -/
def envOkBase : Env :=
  { contentLength := none,
    bodyOutcome := .parsed (.obj (.cons "url" (.str "http://x") .nil)),
    infoRun := .completed ⟨0, "meta-json", ""⟩,
    infoParsed := some (.obj (.cons "title" (.str "T")
      (.cons "duration" (.num 100) (.cons "ext" (.str "webm") .nil)))),
    uuidHex := "u1",
    downloadRun := .completed ⟨0, "", ""⟩,
    fileExists := true,
    sizeAt := fun _ => 5 }

/-- A valid-JSON POST body with no `url` field. -/
def c1xEnv : Env := { envOkBase with bodyOutcome := .parsed (.obj .nil) }

/-- A metadata run exiting non-zero with non-empty stderr. -/
def c1wEnv : Env := { envOkBase with infoRun := .completed ⟨1, "", "meta boom"⟩ }

/-- A metadata run exiting zero whose stdout is not parseable JSON,
with non-empty stderr. -/
def c2xEnv : Env :=
  { envOkBase with infoRun := .completed ⟨0, "not json", "tool stderr text"⟩,
                   infoParsed := none }

/-- A metadata run exiting non-zero with non-empty stderr. -/
def c2wEnv : Env := { envOkBase with infoRun := .completed ⟨2, "", "boom"⟩ }

/-- A request whose Content-Length header is not a number. -/
def c3xEnv : Env := { envOkBase with contentLength := some "abc" }

/-- A request with a parsable Content-Length and a malformed JSON body. -/
def c3wEnv : Env := { envOkBase with contentLength := some "17",
                                     bodyOutcome := .jsonError }

/-- A file system holding a file named `a/downloads/b` inside the
downloads directory and nothing else. -/
def c4xFs : FileSystem :=
  [(["app", "downloads", "a", "downloads", "b"], [1, 2, 3])]

/-- A file system holding exactly `f.mp4` inside the downloads directory. -/
def c4wFs : FileSystem := [(["app", "downloads", "f.mp4"], [9, 9])]

/-- A download exiting zero while every size check reads zero bytes. -/
def c5wEnv : Env := { envOkBase with sizeAt := fun _ => 0 }

/-- A fully successful POST environment. -/
def c6wEnv : Env := envOkBase

/-- A POST whose body parses to an object with a falsy `url`. -/
def c9wEnv : Env := { envOkBase with bodyOutcome := .parsed (.obj (.cons "url" (.str "") .nil)) }

/-- A file system whose only file lies outside the downloads directory. -/
def c10Fs : FileSystem := [(["app", "secret.txt"], [7, 7])]

/-- Every response built through the overridden `end_headers` contains
any of the CORS headers. -/
theorem mem_headers_mkResponse {h : String × String} (hm : h ∈ corsHeaders)
    (s : Nat) (hs : List (String × String)) (b : Body) :
    h ∈ (mkResponse s hs b).headers :=
  List.mem_append.mpr (Or.inr hm)

/-- Every branch of `do_GET` finishes through `end_headers`. -/
theorem do_GET_cors {h : String × String} (hm : h ∈ corsHeaders)
    (fs : FileSystem) (se : StaticEnv) (p : String) :
    h ∈ (do_GET fs se p).resp.headers := by
  unfold do_GET
  split
  · exact mem_headers_mkResponse hm _ _ _
  · split
    · dsimp only
      split
      · exact mem_headers_mkResponse hm _ _ _
      · exact mem_headers_mkResponse hm _ _ _
    · exact mem_headers_mkResponse hm _ _ _

/-- Every response sent for a handler trace goes through
`send_json_response` and hence `end_headers`. -/
theorem responsesOf_cors {h : String × String} (hm : h ∈ corsHeaders)
    {r : Response} {evts : List Event} (hr : r ∈ responsesOf evts) :
    h ∈ r.headers := by
  rcases List.mem_filterMap.mp hr with ⟨e, _, he⟩
  cases e <;> simp at he
  subst he
  exact mem_headers_mkResponse hm _ _ _

/-- Every trace of the inner protected region answers exactly once with
status 200, 400, 500 or 504, and every non-2xx answer is a JSON error
body. -/
theorem tryInner_invariants (env : Env) (url : String) :
    allFailuresOk (tryInner env url) = true
    ∧ respondsOnceOk (tryInner env url) = true := by
  unfold tryInner
  cases env.infoRun with
  | timedOut => exact ⟨rfl, rfl⟩
  | completed ir =>
    dsimp only
    split
    · exact ⟨rfl, rfl⟩
    · cases env.infoParsed with
      | none => exact ⟨rfl, rfl⟩
      | some vi =>
        cases vi with
        | obj fields =>
          dsimp only
          cases env.downloadRun with
          | timedOut => exact ⟨rfl, rfl⟩
          | completed dr =>
            dsimp only
            split
            · exact ⟨rfl, rfl⟩
            · split
              · exact ⟨rfl, rfl⟩
              · split
                · exact ⟨rfl, rfl⟩
                · split
                  · exact ⟨rfl, rfl⟩
                  · exact ⟨rfl, rfl⟩
        | null => exact ⟨rfl, rfl⟩
        | bool b => exact ⟨rfl, rfl⟩
        | num n => exact ⟨rfl, rfl⟩
        | str s => exact ⟨rfl, rfl⟩
        | arr a => exact ⟨rfl, rfl⟩

/-- The invariants of `tryInner_invariants` extend to the whole guarded
body of the handler. -/
theorem tryOuter_invariants (env : Env) :
    allFailuresOk (tryOuter env) = true
    ∧ respondsOnceOk (tryOuter env) = true := by
  unfold tryOuter
  cases env.bodyOutcome with
  | jsonError => exact ⟨rfl, rfl⟩
  | decodeFailed msg => exact ⟨rfl, rfl⟩
  | parsed data =>
    dsimp only
    cases data with
    | obj fields =>
      dsimp only [pyGet]
      cases objLookup fields "url" with
      | none => exact ⟨rfl, rfl⟩
      | some u =>
        dsimp only [Option.getD]
        split
        · cases u with
          | str s => exact tryInner_invariants env s
          | null => exact ⟨rfl, rfl⟩
          | bool b => exact ⟨rfl, rfl⟩
          | num n => exact ⟨rfl, rfl⟩
          | arr a => exact ⟨rfl, rfl⟩
          | obj o => exact ⟨rfl, rfl⟩
        · exact ⟨rfl, rfl⟩
    | null => exact ⟨rfl, rfl⟩
    | bool b => exact ⟨rfl, rfl⟩
    | num n => exact ⟨rfl, rfl⟩
    | str s => exact ⟨rfl, rfl⟩
    | arr a => exact ⟨rfl, rfl⟩

/-- When the Content-Length header parses and the body holds a non-empty
string url, the handler reaches the inner protected region. -/
theorem handle_reaches_tryInner (env : Env) (cl : Int) (fields : JsonObj)
    (u : String)
    (hcl : contentLengthVal env.contentLength = some cl)
    (hb : env.bodyOutcome = .parsed (.obj fields))
    (hu : objLookup fields "url" = some (.str u))
    (hne : u ≠ "") :
    handle_yt_dlp_download env = .ok (tryInner env u) := by
  unfold handle_yt_dlp_download
  rw [hcl]
  unfold tryOuter
  rw [hb]
  dsimp only [pyGet]
  rw [hu]
  dsimp only [Option.getD]
  have ht : truthy (.str u) = true := by
    dsimp [truthy]
    exact bne_iff_ne.mpr hne
  simp [ht]

/-- C1, counterexample: a POST whose valid JSON body has no url field is
answered with status 400 and the body consisting of the single field
error, so this failure response does not carry the field status set to
error, contradicting the claim that every failure response does. -/
theorem c1_missing_status_counterexample :
    handle_yt_dlp_download c1xEnv = .ok [.respond 400 urlNotProvidedBody]
    ∧ statusField urlNotProvidedBody = none :=
  ⟨rfl, rfl⟩

/-- C1 (amended): for every POST to the download API whose Content-Length
header parses, the handler responds, and every non-2xx response has
status 400, 500 or 504 and a JSON body with a string error field; every
such body either carries status error or is exactly the missing-url body
(which has the error field only). -/
theorem c1_failure_bodies (env : Env) (cl : Int)
    (hcl : contentLengthVal env.contentLength = some cl) :
    handle_yt_dlp_download env = .ok (tryOuter env)
    ∧ allFailuresOk (tryOuter env) = true := by
  refine ⟨?_, (tryOuter_invariants env).1⟩
  unfold handle_yt_dlp_download
  rw [hcl]

/-- C1, witness: the amended statement at a concrete failing request. -/
theorem c1_failure_bodies_witness :
    handle_yt_dlp_download c1wEnv = .ok (tryOuter c1wEnv)
    ∧ allFailuresOk (tryOuter c1wEnv) = true :=
  c1_failure_bodies c1wEnv 0 rfl

/-- C2, counterexample: a metadata run that exits 0 with unparseable
stdout and non-empty stderr is answered with the fixed text Invalid video
info response, which differs from the stderr of the tool, contradicting
the claim that the error text is the stderr of the tool. -/
theorem c2_fixed_message_counterexample :
    c2xEnv.infoRun = .completed ⟨0, "not json", "tool stderr text"⟩
    ∧ handle_yt_dlp_download c2xEnv = .ok
        [.runInfo (infoArgs "http://x") 10,
         .respond 400 (errBody "Invalid video info response")]
    ∧ "Invalid video info response" ≠ "tool stderr text" :=
  ⟨rfl, rfl, by decide⟩

/-- C2 (amended): when the metadata subprocess completes, a non-zero exit
is answered 400 with the stderr of the tool when that is non-empty and a
fixed fallback otherwise, and a zero exit with unparseable stdout is
answered 400 with the fixed text Invalid video info response; in both
cases the trace shows the download subprocess is never invoked. -/
theorem c2_metadata_failure (env : Env) (cl : Int) (fields : JsonObj)
    (u : String) (ir : ProcResult)
    (hcl : contentLengthVal env.contentLength = some cl)
    (hb : env.bodyOutcome = .parsed (.obj fields))
    (hu : objLookup fields "url" = some (.str u))
    (hne : u ≠ "")
    (hi : env.infoRun = .completed ir) :
    (ir.returncode ≠ 0 →
      handle_yt_dlp_download env = .ok
        [.runInfo (infoArgs u) 10,
         .respond 400 (errBody
           (if ir.stderr != "" then ir.stderr else "Failed to get video info"))])
    ∧ (ir.returncode = 0 → env.infoParsed = none →
      handle_yt_dlp_download env = .ok
        [.runInfo (infoArgs u) 10,
         .respond 400 (errBody "Invalid video info response")]) := by
  have hmain := handle_reaches_tryInner env cl fields u hcl hb hu hne
  constructor
  · intro hrc
    rw [hmain]
    unfold tryInner
    rw [hi]
    dsimp only
    simp [bne_iff_ne.mpr hrc]
  · intro hrc hip
    rw [hmain]
    unfold tryInner
    rw [hi]
    dsimp only
    simp [hrc, hip]

/-- C2, witness: the amended statement at a concrete metadata failure. -/
theorem c2_metadata_failure_witness :
    handle_yt_dlp_download c2wEnv = .ok
      [.runInfo (infoArgs "http://x") 10, .respond 400 (errBody "boom")] := by
  have h := (c2_metadata_failure c2wEnv 0 (.cons "url" (.str "http://x") .nil)
      "http://x" ⟨2, "", "boom"⟩ rfl rfl rfl (by decide) rfl).1 (by decide)
  exact h

/-- C3, counterexample: a POST whose Content-Length header is the text
abc makes the handler raise before its protective try block, so the
exception propagates out of the handler unhandled, contradicting the
claim that no exception raised while reading the request body and its
Content-Length header escapes. -/
theorem c3_content_length_counterexample :
    handle_yt_dlp_download c3xEnv
      = .error "ValueError: invalid literal for int with base 10" :=
  rfl

/-- C3 (amended): for every POST whose Content-Length header parses (the
parse sits before the try block and its failure propagates), every error
kind is caught inside the protected region and the handler sends exactly
one JSON response, whose status is 200, 400, 500 or 504. -/
theorem c3_boundary (env : Env) (cl : Int)
    (hcl : contentLengthVal env.contentLength = some cl) :
    handle_yt_dlp_download env = .ok (tryOuter env)
    ∧ respondsOnceOk (tryOuter env) = true := by
  refine ⟨?_, (tryOuter_invariants env).2⟩
  unfold handle_yt_dlp_download
  rw [hcl]

/-- C3, witness: the amended statement at a concrete malformed-body
request with a parsable Content-Length. -/
theorem c3_boundary_witness :
    handle_yt_dlp_download c3wEnv = .ok (tryOuter c3wEnv)
    ∧ respondsOnceOk (tryOuter c3wEnv) = true :=
  c3_boundary c3wEnv 17 rfl

/-- C9: a POST whose body is a valid JSON object with no url binding, or
with a falsy one, is answered 400 with the missing-url body, and the
trace holds no subprocess invocation at all. -/
theorem c9_missing_url (env : Env) (cl : Int) (fields : JsonObj)
    (hcl : contentLengthVal env.contentLength = some cl)
    (hb : env.bodyOutcome = .parsed (.obj fields))
    (hu : objLookup fields "url" = none
          ∨ ∃ u, objLookup fields "url" = some u ∧ truthy u = false) :
    handle_yt_dlp_download env = .ok [.respond 400 urlNotProvidedBody]
    ∧ noProcEvents [.respond 400 urlNotProvidedBody] = true := by
  refine ⟨?_, rfl⟩
  unfold handle_yt_dlp_download
  rw [hcl]
  unfold tryOuter
  rw [hb]
  dsimp only [pyGet]
  rcases hu with h | ⟨u, hu, ht⟩
  · rw [h]
    rfl
  · rw [hu]
    simp [ht]

/-- C9, witness: the statement at a concrete empty-string url. -/
theorem c9_missing_url_witness :
    handle_yt_dlp_download c9wEnv = .ok [.respond 400 urlNotProvidedBody]
    ∧ noProcEvents [.respond 400 urlNotProvidedBody] = true :=
  c9_missing_url c9wEnv 0 (.cons "url" (.str "") .nil) rfl rfl
    (Or.inr ⟨.str "", rfl, rfl⟩)

/-- C5: when the download subprocess exits 0, the file exists, and every
bounded size re-check reads zero bytes, the handler unlinks the file and
only then responds 400 with the error text describing the content as
likely restricted or unavailable. -/
theorem c5_empty_file (env : Env) (cl : Int) (fields vfields : JsonObj)
    (u : String) (ir dr : ProcResult)
    (hcl : contentLengthVal env.contentLength = some cl)
    (hb : env.bodyOutcome = .parsed (.obj fields))
    (hu : objLookup fields "url" = some (.str u))
    (hne : u ≠ "")
    (hi : env.infoRun = .completed ir) (hirc : ir.returncode = 0)
    (hip : env.infoParsed = some (.obj vfields))
    (hd : env.downloadRun = .completed dr) (hdrc : dr.returncode = 0)
    (hex : env.fileExists = true)
    (hsz : finalSize env.sizeAt = 0) :
    handle_yt_dlp_download env = .ok
      [.runInfo (infoArgs u) 10,
       .runDownload (downloadArgs u (filePathStr (safeFilename env.uuidHex vfields))) 600,
       .unlinkFile (pathJoin DOWNLOADS_DIR (safeFilename env.uuidHex vfields)),
       .respond 400 (errBody "Downloaded file is empty. The video might be restricted or unavailable. Try another link.")] := by
  rw [handle_reaches_tryInner env cl fields u hcl hb hu hne]
  unfold tryInner
  rw [hi]
  dsimp only
  rw [hip]
  dsimp only
  rw [hd]
  dsimp only
  simp [hirc, hdrc, hex, hsz, safeFilename]

/-- C5, witness: the statement at a concrete zero-byte download. -/
theorem c5_empty_file_witness :
    handle_yt_dlp_download c5wEnv = .ok
      [.runInfo (infoArgs "http://x") 10,
       .runDownload (downloadArgs "http://x" (filePathStr "u1.webm")) 600,
       .unlinkFile (pathJoin DOWNLOADS_DIR "u1.webm"),
       .respond 400 (errBody "Downloaded file is empty. The video might be restricted or unavailable. Try another link.")] := by
  have h := c5_empty_file c5wEnv 0 (.cons "url" (.str "http://x") .nil)
    (.cons "title" (.str "T") (.cons "duration" (.num 100) (.cons "ext" (.str "webm") .nil)))
    "http://x" ⟨0, "meta-json", ""⟩ ⟨0, "", ""⟩
    rfl rfl rfl (by decide) rfl rfl rfl rfl rfl rfl rfl
  exact h

/-- C6: a fully successful POST is answered 200 with a JSON object
holding exactly the fields status (success), title, duration, thumbnail,
filesize (the final measured size), filename (the uuid hex plus the
reported extension, defaulting to mp4), url (the downloads path of that
filename) and desc, in this order. -/
theorem c6_success (env : Env) (cl : Int) (fields vfields : JsonObj)
    (u : String) (ir dr : ProcResult) (n : Nat) (desc : String)
    (hcl : contentLengthVal env.contentLength = some cl)
    (hb : env.bodyOutcome = .parsed (.obj fields))
    (hu : objLookup fields "url" = some (.str u))
    (hne : u ≠ "")
    (hi : env.infoRun = .completed ir) (hirc : ir.returncode = 0)
    (hip : env.infoParsed = some (.obj vfields))
    (hd : env.downloadRun = .completed dr) (hdrc : dr.returncode = 0)
    (hex : env.fileExists = true)
    (hsz : finalSize env.sizeAt = n) (hn : n ≠ 0)
    (hft : format_time ((objLookup vfields "duration").getD (.num 0)) = .ok desc) :
    handle_yt_dlp_download env = .ok
      [.runInfo (infoArgs u) 10,
       .runDownload (downloadArgs u (filePathStr (safeFilename env.uuidHex vfields))) 600,
       .respond 200 (.obj
         (.cons "status" (.str "success")
         (.cons "title" ((objLookup vfields "title").getD (.str "video"))
         (.cons "duration" ((objLookup vfields "duration").getD (.num 0))
         (.cons "thumbnail" ((objLookup vfields "thumbnail").getD (.str ""))
         (.cons "filesize" (.num (n : Int))
         (.cons "filename" (.str (safeFilename env.uuidHex vfields))
         (.cons "url" (.str ("/downloads/" ++ safeFilename env.uuidHex vfields))
         (.cons "desc" (.str ("Duration: " ++ desc)) .nil)))))))))] := by
  rw [handle_reaches_tryInner env cl fields u hcl hb hu hne]
  unfold tryInner
  rw [hi]
  dsimp only
  rw [hip]
  dsimp only
  rw [hd]
  dsimp only
  simp [hirc, hdrc, hex, hsz, hn, hft, safeFilename]

/-- C6, witness: the statement at a concrete successful download. -/
theorem c6_success_witness :
    handle_yt_dlp_download c6wEnv = .ok
      [.runInfo (infoArgs "http://x") 10,
       .runDownload (downloadArgs "http://x" (filePathStr "u1.webm")) 600,
       .respond 200 (.obj
         (.cons "status" (.str "success")
         (.cons "title" (.str "T")
         (.cons "duration" (.num 100)
         (.cons "thumbnail" (.str "")
         (.cons "filesize" (.num 5)
         (.cons "filename" (.str "u1.webm")
         (.cons "url" (.str "/downloads/u1.webm")
         (.cons "desc" (.str "Duration: 1:40") .nil)))))))))] := by
  have h := c6_success c6wEnv 0 (.cons "url" (.str "http://x") .nil)
    (.cons "title" (.str "T") (.cons "duration" (.num 100) (.cons "ext" (.str "webm") .nil)))
    "http://x" ⟨0, "meta-json", ""⟩ ⟨0, "", ""⟩ 5 "1:40"
    rfl rfl rfl (by decide) rfl rfl rfl rfl rfl rfl rfl (by decide) rfl
  exact h

/-- C7: every response the server sends, on any route and for success or
error alike, carries the three CORS headers. -/
theorem c7_cors_on_every_response (fs : FileSystem) (se : StaticEnv)
    (req : Request) (r : Response) (hr : r ∈ handleRequest fs se req) :
    ("Access-Control-Allow-Origin", "*") ∈ r.headers
    ∧ ("Access-Control-Allow-Methods", "GET, POST, OPTIONS") ∈ r.headers
    ∧ ("Access-Control-Allow-Headers", "Content-Type") ∈ r.headers := by
  have key : ∀ h ∈ corsHeaders, h ∈ r.headers := by
    intro h hm
    cases req with
    | get p =>
        simp only [handleRequest, List.mem_singleton] at hr
        subst hr
        exact do_GET_cors hm _ _ _
    | options p =>
        simp only [handleRequest, List.mem_singleton] at hr
        subst hr
        exact mem_headers_mkResponse hm _ _ _
    | post p env =>
        simp only [handleRequest, do_POST] at hr
        split at hr
        · split at hr
          · exact responsesOf_cors hm hr
          · simp at hr
        · simp only [List.mem_singleton] at hr
          subst hr
          exact mem_headers_mkResponse hm _ _ _
  exact ⟨key _ (by simp [corsHeaders]), key _ (by simp [corsHeaders]),
         key _ (by simp [corsHeaders])⟩

/-- C7, witness: the three headers on a concrete response. -/
theorem c7_cors_witness :
    ("Access-Control-Allow-Origin", "*") ∈ (do_OPTIONS "/").headers
    ∧ ("Access-Control-Allow-Methods", "GET, POST, OPTIONS") ∈ (do_OPTIONS "/").headers
    ∧ ("Access-Control-Allow-Headers", "Content-Type") ∈ (do_OPTIONS "/").headers :=
  c7_cors_on_every_response [] seZero (.options "/") (do_OPTIONS "/")
    (by simp [handleRequest])

/-- C8: an OPTIONS request to any path gets status 200, an empty body
and the three CORS headers, regardless of the path requested. -/
theorem c8_options_any_path (p : String) :
    (do_OPTIONS p).status = 200
    ∧ (do_OPTIONS p).body = .empty
    ∧ ("Access-Control-Allow-Origin", "*") ∈ (do_OPTIONS p).headers
    ∧ ("Access-Control-Allow-Methods", "GET, POST, OPTIONS") ∈ (do_OPTIONS p).headers
    ∧ ("Access-Control-Allow-Headers", "Content-Type") ∈ (do_OPTIONS p).headers := by
  refine ⟨rfl, rfl, ?_, ?_, ?_⟩ <;> simp [do_OPTIONS, mkResponse, end_headers, corsHeaders]

/-- The Python startswith check succeeds on an appended prefix. -/
theorem listStartsWith_append [BEq α] [LawfulBEq α] (pat rest : List α) :
    listStartsWith (pat ++ rest) pat = true := by
  induction pat with
  | nil => simp [listStartsWith]
  | cons p ps ih => simp [listStartsWith, ih]

/-- String-level form of `listStartsWith_append`. -/
theorem pyStartsWith_append (pre rest : String) :
    pyStartsWith (pre ++ rest) pre = true := by
  unfold pyStartsWith
  rw [String.data_append]
  exact listStartsWith_append _ _

/-- A downloads path is never the bare root path. -/
theorem downloads_path_ne_root (name : String) :
    (("/downloads/" ++ name) == "/") = false := by
  apply beq_eq_false_iff_ne.mpr
  intro h
  have hd := congrArg String.data h
  rw [String.data_append] at hd
  have hl := congrArg List.length hd
  rw [List.length_append] at hl
  have h11 : "/downloads/".data.length = 11 := rfl
  have h1 : "/".data.length = 1 := rfl
  rw [h11, h1] at hl
  omega

/-- Replacement leaves a text without occurrences of the pattern intact. -/
theorem pyReplaceAux_noSub (pat rep : List Char) (fuel : Nat) :
    ∀ l : List Char, listHasSub pat l = false → pyReplaceAux pat rep fuel l = l := by
  induction fuel with
  | zero => intro l _; rfl
  | succ fuel ih =>
    intro l hno
    cases l with
    | nil => rfl
    | cons c rest =>
      rw [listHasSub, Bool.or_eq_false_iff] at hno
      simp [pyReplaceAux, hno.1, ih rest hno.2]

/-- Replacing a non-empty pattern by nothing in a text that starts with
the pattern and continues without further occurrences strips exactly the
leading pattern. -/
theorem pyReplaceAux_strip (p : Char) (ps nd : List Char) (fuel : Nat)
    (hno : listHasSub (p :: ps) nd = false) :
    pyReplaceAux (p :: ps) [] (fuel + 1) ((p :: ps) ++ nd) = nd := by
  have h1 : listStartsWith (p :: (ps ++ nd)) (p :: ps) = true := by
    rw [← List.cons_append]
    exact listStartsWith_append _ _
  rw [List.cons_append, pyReplaceAux]
  simp only [List.isEmpty, h1, Bool.not_false, Bool.and_true, if_true]
  rw [List.length_cons, List.drop_succ_cons, List.drop_left, List.nil_append]
  exact pyReplaceAux_noSub _ _ _ _ hno

/-- For a name without the substring consisting of slash, the word
downloads and a slash, the filename the GET handler computes by
replace-all is the name itself. -/
theorem downloads_strip (name : String)
    (hno : listHasSub "/downloads/".data name.data = false) :
    pyReplace ("/downloads/" ++ name) "/downloads/" "" = name := by
  obtain ⟨nd⟩ := name
  unfold pyReplace pyReplaceList
  have hdat : ("/downloads/" ++ String.mk nd).data = "/downloads/".data ++ nd := by
    rw [String.data_append]
  have hpat : "/downloads/".data
      = '/' :: ['d', 'o', 'w', 'n', 'l', 'o', 'a', 'd', 's', '/'] := rfl
  have hemp : "".data = ([] : List Char) := rfl
  rw [hdat, hemp]
  have hlen : ("/downloads/".data ++ nd).length = nd.length + 11 := by
    rw [List.length_append]
    have h11 : "/downloads/".data.length = 11 := rfl
    rw [h11]
    omega
  rw [hlen]
  rw [hpat] at hno ⊢
  rw [show nd.length + 11 = (nd.length + 10) + 1 from rfl]
  rw [pyReplaceAux_strip _ _ _ _ hno]

/-- Looking a key up after removing it finds nothing. -/
theorem fsLookup_fsRemove (fs : FileSystem) (k : List String) :
    fsLookup (fsRemove fs k) k = none := by
  induction fs with
  | nil => rfl
  | cons e tl ih =>
    by_cases h : (e.1 == k) = true
    · simp [fsRemove, h, ih]
    · simp only [Bool.not_eq_true] at h
      simp [fsRemove, fsLookup, h, ih]

/-- C4, counterexample: the handler strips every occurrence of the
downloads prefix from the path, so for the name a/downloads/b, whose file
exists under the downloads directory, it looks up the unrelated file ab
and answers 404 instead of the claimed 200. -/
theorem c4_replace_all_counterexample :
    fsLookup c4xFs (resolveSegs (pathJoin DOWNLOADS_DIR "a/downloads/b")) = some [1, 2, 3]
    ∧ resolveSegs (pathJoin DOWNLOADS_DIR "a/downloads/b")
        = DOWNLOADS_DIR ++ ["a", "downloads", "b"]
    ∧ (do_GET c4xFs seZero "/downloads/a/downloads/b").resp.status = 404 :=
  ⟨by decide, by decide, by decide⟩

/-- C4 (amended): for every GET of a downloads path whose name does not
contain the substring consisting of slash, the word downloads and a
slash: when the file at the joined and resolved downloads path exists,
the response is 200 with content type video/mp4 and attachment
disposition, the body is exactly the bytes of the file, the file is
removed, and a second GET of the same path answers 404; when the file
does not exist, the response is 404. -/
theorem c4_downloads_get (fs : FileSystem) (se : StaticEnv) (name : String)
    (hno : listHasSub "/downloads/".data name.data = false) :
    (∀ content,
       fsLookup fs (resolveSegs (pathJoin DOWNLOADS_DIR name)) = some content →
       (do_GET fs se ("/downloads/" ++ name)).resp.status = 200
       ∧ ("Content-type", "video/mp4") ∈ (do_GET fs se ("/downloads/" ++ name)).resp.headers
       ∧ ("Content-Disposition", "attachment; filename=\"" ++ name ++ "\"")
           ∈ (do_GET fs se ("/downloads/" ++ name)).resp.headers
       ∧ (do_GET fs se ("/downloads/" ++ name)).resp.body = .fileBytes content
       ∧ (do_GET fs se ("/downloads/" ++ name)).fs
           = fsRemove fs (resolveSegs (pathJoin DOWNLOADS_DIR name))
       ∧ (do_GET (do_GET fs se ("/downloads/" ++ name)).fs se
            ("/downloads/" ++ name)).resp.status = 404)
    ∧ (fsLookup fs (resolveSegs (pathJoin DOWNLOADS_DIR name)) = none →
       (do_GET fs se ("/downloads/" ++ name)).resp.status = 404) := by
  have hred : ∀ fs' : FileSystem, do_GET fs' se ("/downloads/" ++ name)
      = match fsLookup fs' (resolveSegs (pathJoin DOWNLOADS_DIR name)) with
        | some content =>
            { resp := mkResponse 200
                [("Content-type", "video/mp4"),
                 ("Content-Disposition", "attachment; filename=\"" ++ name ++ "\""),
                 ("Content-Length", toString content.length)]
                (.fileBytes content),
              fs := fsRemove fs' (resolveSegs (pathJoin DOWNLOADS_DIR name)) }
        | none => { resp := send_error 404, fs := fs' } := by
    intro fs'
    unfold do_GET
    simp [downloads_path_ne_root name, pyStartsWith_append, downloads_strip name hno]
  constructor
  · intro content hc
    rw [hred fs, hc]
    refine ⟨rfl, ?_, ?_, rfl, rfl, ?_⟩
    · simp [mkResponse, end_headers]
    · simp [mkResponse, end_headers]
    · rw [hred (fsRemove fs (resolveSegs (pathJoin DOWNLOADS_DIR name))),
          fsLookup_fsRemove]
      rfl
  · intro hnone
    rw [hred fs, hnone]
    rfl

/-- C4, witness: the amended statement at a concrete stored file. -/
theorem c4_downloads_get_witness :
    (do_GET c4wFs seZero "/downloads/f.mp4").resp.status = 200
    ∧ (do_GET c4wFs seZero "/downloads/f.mp4").resp.body = .fileBytes [9, 9]
    ∧ (do_GET (do_GET c4wFs seZero "/downloads/f.mp4").fs seZero
         "/downloads/f.mp4").resp.status = 404 := by
  have h := (c4_downloads_get c4wFs seZero "f.mp4" (by decide)).1 [9, 9] (by decide)
  exact ⟨h.1, h.2.2.2.1, h.2.2.2.2.2⟩

/-- C10: the served path is the raw join of the downloads directory with
the request name, with no normalization or containment check: the name
with a parent segment and the text secret.txt resolves outside the
downloads directory, yet the handler serves the file there with 200 and
deletes it. -/
theorem c10_path_traversal :
    ".." ∈ segsOf "../secret.txt"
    ∧ listStartsWith (resolveSegs (pathJoin DOWNLOADS_DIR "../secret.txt")) DOWNLOADS_DIR = false
    ∧ fsLookup c10Fs (resolveSegs (pathJoin DOWNLOADS_DIR "../secret.txt")) = some [7, 7]
    ∧ (do_GET c10Fs seZero "/downloads/../secret.txt").resp.status = 200
    ∧ (do_GET c10Fs seZero "/downloads/../secret.txt").resp.body = .fileBytes [7, 7]
    ∧ (do_GET c10Fs seZero "/downloads/../secret.txt").fs = [] :=
  ⟨by decide, by decide, by decide, rfl, rfl, rfl⟩
